import Mathlib

/-!
Verification of the job-board backend (routes/applications.js, routes/jobs.js,
routes/notifications.js, models/reviews.js, models/savedJobs.js) against its
specification.  The document store is modelled as explicit lists of documents;
every route handler becomes a pure function from the store state (plus the
request data and the identity resolved from the bearer token) to an HTTP
response paired with the new store state.  Mongo ObjectIds are modelled as
natural numbers (all ids in scope are well formed, so `ObjectId.isValid`
checks pass); ISO timestamp strings are modelled as naturals.
-/

namespace JobBoard

/-- Opaque document / user identifier (a well-formed Mongo ObjectId). -/
abbrev Id := Nat

/-- A `jobs` collection document, as built by POST /jobs/create
(routes/jobs.js lines 57-69). -/
structure Job where
  id : Id
  employerId : Id
  title : String
  salary : Int
  salaryPeriod : String
  employmentType : String
  location : String
  description : String
  requirements : List String
  postedDate : Nat
  active : Bool
  applications : List Id
deriving Repr, DecidableEq

/-- An `applications` collection document, as built by POST /applications/apply
(routes/applications.js lines 191-201). -/
structure Application where
  id : Id
  jobId : Id
  applicantId : Id
  employerId : Id
  coverLetter : String
  additionalNotes : String
  resumePath : Option String
  status : String
  appliedDate : Nat
  lastStatusUpdate : Nat
deriving Repr, DecidableEq

/-- A `savedJobs` collection document (routes/jobs.js lines 618-622). -/
structure SavedJob where
  userId : Id
  jobId : Id
  savedDate : Nat
deriving Repr, DecidableEq

/-- A `notifications` collection document, as built by `createNotification`
(routes/notifications.js lines 173-183). -/
structure Notification where
  recipientId : Id
  senderId : Option Id
  type : String
  title : String
  message : String
  relatedId : Option Id
  relatedType : Option String
  isRead : Bool
  createdAt : Nat
deriving Repr, DecidableEq

/-- A `reviews` collection document (models/reviews.js `createReview`). -/
structure Review where
  employerId : Id
  jobseekerId : Id
  rating : Int
  comment : String
  jobId : Option Id
  createdAt : Nat
deriving Repr, DecidableEq

/-- A `users` collection document (the fields read by the routes in scope). -/
structure User where
  id : Id
  firstName : String
  lastName : String
  email : String
deriving Repr, DecidableEq

/-- The document store: one list of documents per collection. -/
structure DB where
  jobs : List Job
  applications : List Application
  savedJobs : List SavedJob
  notifications : List Notification
  reviews : List Review
  users : List User
deriving Repr, DecidableEq

/-- An HTTP JSON response: status code and the `message` field of the body. -/
structure Resp where
  status : Nat
  message : String
deriving Repr, DecidableEq

/-- Mongo `updateOne`: apply `f` to the first document matching `p`
(later matches are untouched, as `updateOne` updates a single document). -/
def updateFirst (p : α → Bool) (f : α → α) : List α → List α
  | [] => []
  | x :: xs => if p x then f x :: xs else x :: updateFirst p f xs

/-- Mongo `deleteOne`: remove the first document matching `p`. -/
def deleteFirst (p : α → Bool) : List α → List α
  | [] => []
  | x :: xs => if p x then xs else x :: deleteFirst p xs

/-- The `data` argument of `createNotification`
(routes/notifications.js lines 169-191). -/
structure NotificationData where
  recipientId : Id
  senderId : Option Id
  type : String
  title : String
  message : String
  relatedId : Option Id
  relatedType : Option String
deriving Repr, DecidableEq

/-- `createNotification(db, data)` (routes/notifications.js lines 169-191):
one `insertOne` into the notifications collection.  The driver exception on a
failed insert is modelled by the `insertOk` flag; on failure the function logs
and RETHROWS (`throw error` at line 189), modelled by returning `none` so the
caller's own catch block decides the response. -/
def createNotification (db : DB) (data : NotificationData) (now : Nat)
    (insertOk : Bool) : Option DB :=
  if insertOk then
    some { db with notifications := db.notifications ++
      [{ recipientId := data.recipientId, senderId := data.senderId,
         type := data.type, title := data.title, message := data.message,
         relatedId := data.relatedId, relatedType := data.relatedType,
         isRead := false, createdAt := now }] }
  else none

/-- The `application` document built at routes/applications.js lines 191-201. -/
def newApplication (jobId applicantId employerId : Id) (coverLetter : String)
    (additionalNotes : Option String) (resumePath : Option String)
    (newId : Id) (now : Nat) : Application :=
  { id := newId, jobId := jobId, applicantId := applicantId,
    employerId := employerId, coverLetter := coverLetter,
    additionalNotes := additionalNotes.getD "",
    resumePath := resumePath, status := "Pending",
    appliedDate := now, lastStatusUpdate := now }

/-- POST /applications/apply (routes/applications.js lines 152-234).
`userId`, `userFirstName`, `userLastName` come from the verified token;
`jobId?` is `none` when the body field is missing (JS falsy); `newAppId` is
the ObjectId Mongo assigns to the inserted document; `notifOk` models whether
the notification `insertOne` succeeds.  When it fails, `createNotification`
rethrows and the route's catch block at lines 230-233 answers 500 — the
already-performed application insert and job patch are not rolled back.
(The applicant lookup at lines 186-188 is a pure read whose result is unused
in this variant; the notification message uses the token fields.) -/
def postApply (db : DB) (userId : Id) (userFirstName userLastName : String)
    (jobId? : Option Id) (coverLetter : String) (additionalNotes : Option String)
    (resumeFile : Option String) (newAppId : Id) (now : Nat) (notifOk : Bool) :
    Resp × DB :=
  match jobId? with
  | none => (⟨400, "Job ID and cover letter are required"⟩, db)
  | some jobId =>
    if coverLetter = "" then (⟨400, "Job ID and cover letter are required"⟩, db)
    else
      match db.jobs.find? (fun j => j.id == jobId) with
      | none => (⟨404, "Job not found"⟩, db)
      | some job =>
        match db.applications.find? (fun a => a.jobId == jobId && a.applicantId == userId) with
        | some _ => (⟨400, "You have already applied for this job"⟩, db)
        | none =>
          let application := newApplication jobId userId job.employerId
            coverLetter additionalNotes resumeFile newAppId now
          let dbIns : DB := { db with applications := db.applications ++ [application] }
          let pushedJobs := updateFirst (fun j => j.id == jobId)
            (fun j => { j with applications := j.applications ++ [newAppId] }) dbIns.jobs
          let dbPush : DB := { dbIns with jobs := pushedJobs }
          match createNotification dbPush
              { recipientId := job.employerId, senderId := some userId,
                type := "job_application", title := "New Job Application",
                message := userFirstName ++ " " ++ userLastName ++
                  " has applied for your job: " ++ job.title,
                relatedId := some newAppId, relatedType := some "application" }
              now notifOk with
          | some dbNotif => (⟨201, "Application submitted successfully"⟩, dbNotif)
          | none => (⟨500, "Error submitting application"⟩, dbPush)

/-- The sequence of store states produced by the writes of POST /apply, in
program order: after the application `insertOne` (line 203), after the job
`updateOne` with `$push` (lines 207-210), and after the notification insert
(lines 213-221) when it succeeds.  Empty when the request is rejected before
any write. -/
def applyTrace (db : DB) (userId : Id) (userFirstName userLastName : String)
    (jobId? : Option Id) (coverLetter : String) (additionalNotes : Option String)
    (resumeFile : Option String) (newAppId : Id) (now : Nat) (notifOk : Bool) :
    List DB :=
  match jobId? with
  | none => []
  | some jobId =>
    if coverLetter = "" then []
    else
      match db.jobs.find? (fun j => j.id == jobId) with
      | none => []
      | some job =>
        match db.applications.find? (fun a => a.jobId == jobId && a.applicantId == userId) with
        | some _ => []
        | none =>
          let application := newApplication jobId userId job.employerId
            coverLetter additionalNotes resumeFile newAppId now
          let dbIns : DB := { db with applications := db.applications ++ [application] }
          let pushedJobs := updateFirst (fun j => j.id == jobId)
            (fun j => { j with applications := j.applications ++ [newAppId] }) dbIns.jobs
          let dbPush : DB := { dbIns with jobs := pushedJobs }
          match createNotification dbPush
              { recipientId := job.employerId, senderId := some userId,
                type := "job_application", title := "New Job Application",
                message := userFirstName ++ " " ++ userLastName ++
                  " has applied for your job: " ++ job.title,
                relatedId := some newAppId, relatedType := some "application" }
              now notifOk with
          | some dbNotif => [dbIns, dbPush, dbNotif]
          | none => [dbIns, dbPush]

/-- DELETE /applications/:id — withdraw an application
(routes/applications.js lines 237-286). -/
def deleteApplication (db : DB) (userId : Id) (applicationId : Id) : Resp × DB :=
  match db.applications.find? (fun a => a.id == applicationId) with
  | none => (⟨404, "Application not found"⟩, db)
  | some application =>
    if application.applicantId != userId then
      (⟨403, "Not authorized to withdraw this application"⟩, db)
    else if application.status != "Pending" then
      (⟨400, "Can only withdraw pending applications"⟩, db)
    else
      let remainingApps := deleteFirst (fun a => a.id == applicationId) db.applications
      let dbDel : DB := { db with applications := remainingApps }
      let pulledJobs := updateFirst (fun j => j.id == application.jobId)
        (fun j => { j with applications :=
          j.applications.filter (fun aid => aid != applicationId) }) dbDel.jobs
      let dbPull : DB := { dbDel with jobs := pulledJobs }
      (⟨200, "Application withdrawn successfully"⟩, dbPull)

/-- The closed status set of PUT /applications/:id/status
(routes/applications.js line 349). -/
def validStatuses : List String :=
  ["Pending", "Reviewed", "Interviewing", "Hired", "Rejected"]

/-- PUT /applications/:id/status (routes/applications.js lines 335-416).
`status?` is `none` when the body field is missing; `now` is the fresh
`lastStatusUpdate` timestamp; `notifOk` models the notification insert as in
`postApply`.  `modifiedCount` is 0 when the `$set` leaves the stored document
bit-for-bit unchanged (same status and same timestamp), matching Mongo. -/
def putApplicationStatus (db : DB) (userId : Id) (applicationId : Id)
    (status? : Option String) (now : Nat) (notifOk : Bool) : Resp × DB :=
  match status? with
  | none => (⟨400, "Status is required"⟩, db)
  | some status =>
    if status = "" then (⟨400, "Status is required"⟩, db)
    else if !(validStatuses.contains status) then (⟨400, "Invalid status"⟩, db)
    else
      match db.applications.find? (fun a => a.id == applicationId) with
      | none => (⟨404, "Application not found"⟩, db)
      | some application =>
        if application.employerId != userId then
          (⟨403, "Not authorized to update this application"⟩, db)
        else
          let updatedApps := updateFirst (fun a => a.id == applicationId)
            (fun a => { a with status := status, lastStatusUpdate := now })
            db.applications
          let dbUpd : DB := { db with applications := updatedApps }
          let modifiedCount : Nat :=
            if application.status == status && application.lastStatusUpdate == now
            then 0 else 1
          if modifiedCount == 1 then
            let applicant := db.users.find? (fun u => u.id == application.applicantId)
            let job := db.jobs.find? (fun j => j.id == application.jobId)
            match applicant, job with
            | some _, some job =>
              match createNotification dbUpd
                  { recipientId := application.applicantId, senderId := some userId,
                    type := "application_status", title := "Application Status Update",
                    message := "Your application for " ++ job.title ++
                      " has been updated to " ++ status,
                    relatedId := some applicationId, relatedType := some "application" }
                  now notifOk with
              | some dbNotif => (⟨200, "Application status updated successfully"⟩, dbNotif)
              | none => (⟨500, "Error updating application status"⟩, dbUpd)
            | _, _ => (⟨200, "Application status updated successfully"⟩, dbUpd)
          else (⟨400, "Failed to update application status"⟩, dbUpd)

/-- `pat` occurs at the start of `text`. -/
def charsStartWith : List Char → List Char → Bool
  | [], _ => true
  | _ :: _, [] => false
  | a :: as, b :: bs => a == b && charsStartWith as bs

/-- `pat` occurs somewhere inside `text`. -/
def charsContain (pat : List Char) : List Char → Bool
  | [] => charsStartWith pat []
  | b :: bs => charsStartWith pat (b :: bs) || charsContain pat bs

/-- Mongo `{$regex: pat, $options: i}` with a metacharacter-free pattern:
unanchored, case-insensitive substring match. -/
def regexMatchCI (pat s : String) : Bool :=
  charsContain pat.toLower.data s.toLower.data

/-- JS truthiness of an optional string request value: absent (`undefined`)
and the empty string are falsy. -/
def truthyStr : Option String → Bool
  | some s => s ≠ ""
  | none => false

/-- JS truthiness of an optional numeric request value: absent and 0 are falsy. -/
def truthyInt : Option Int → Bool
  | some n => n ≠ 0
  | none => false

/-- JS truthiness of an optional array request value: an array is an object and
is ALWAYS truthy, including the empty array `[]`. -/
def truthyArr : Option (List String) → Bool
  | some _ => true
  | none => false

/-- The filter document built by GET /jobs (routes/jobs.js lines 92-108),
applied to one job document: `{active: true}` always, plus the optional
`location` regex, `employmentType` equality and `keyword` `$or` regex clauses,
each added only when the query parameter is truthy. -/
def matchesJobFilter (location? employmentType? keyword? : Option String)
    (j : Job) : Bool :=
  (j.active == true)
  && (if truthyStr location? then regexMatchCI (location?.getD "") j.location else true)
  && (if truthyStr employmentType? then j.employmentType == employmentType?.getD "" else true)
  && (if truthyStr keyword? then
        regexMatchCI (keyword?.getD "") j.title
        || regexMatchCI (keyword?.getD "") j.description
      else true)

/-- GET /jobs — public listing (routes/jobs.js lines 88-121): find with the
filter above, sorted by postedDate descending. -/
def getJobs (db : DB) (location? employmentType? keyword? : Option String) :
    List Job :=
  List.insertionSort (fun a b => b.postedDate ≤ a.postedDate)
    (db.jobs.filter (matchesJobFilter location? employmentType? keyword?))

/-- The request body of PUT /jobs/:id: `none` models an absent field. -/
structure JobUpdateReq where
  title : Option String
  salary : Option Int
  salaryPeriod : Option String
  employmentType : Option String
  location : Option String
  description : Option String
  requirements : Option (List String)
  active : Option Bool
deriving Repr, DecidableEq

/-- Whether the `updateData` document built at routes/jobs.js lines 188-197 has
at least one field (a field enters it only when its request value is truthy,
except `active`, which enters whenever it is not `undefined`). -/
def updateDataNonempty (r : JobUpdateReq) : Bool :=
  truthyStr r.title || truthyInt r.salary || truthyStr r.salaryPeriod
  || truthyStr r.employmentType || truthyStr r.location || truthyStr r.description
  || truthyArr r.requirements || r.active.isSome

/-- The effect of `$set: updateData` (routes/jobs.js lines 188-202) on the
stored job document: a field is in `updateData`, and hence overwritten, exactly
when its request value is truthy (for `active`: whenever it is present, even
`false`); every other stored field keeps its old value. -/
def patchJob (j : Job) (r : JobUpdateReq) : Job :=
  { j with
    title := if truthyStr r.title then r.title.getD "" else j.title,
    salary := if truthyInt r.salary then r.salary.getD 0 else j.salary,
    salaryPeriod := if truthyStr r.salaryPeriod then r.salaryPeriod.getD ""
      else j.salaryPeriod,
    employmentType := if truthyStr r.employmentType then r.employmentType.getD ""
      else j.employmentType,
    location := if truthyStr r.location then r.location.getD "" else j.location,
    description := if truthyStr r.description then r.description.getD ""
      else j.description,
    requirements := match r.requirements with
      | some l => l
      | none => j.requirements,
    active := match r.active with
      | some b => b
      | none => j.active }

/-- PUT /jobs/:id (routes/jobs.js lines 166-213): ownership check, then
`updateOne({_id}, {$set: updateData})`.  When `updateData` is empty Mongo
rejects the empty `$set` and the catch block answers 500 with no write;
`modifiedCount` is 0 when the patch leaves the stored document unchanged,
yielding the 400 "No changes made to job" branch. -/
def putJob (db : DB) (userId : Id) (jobId : Id) (r : JobUpdateReq) : Resp × DB :=
  match db.jobs.find? (fun j => j.id == jobId && j.employerId == userId) with
  | none => (⟨404, "Job not found or not authorized to update"⟩, db)
  | some _ =>
    if !updateDataNonempty r then (⟨500, "Error updating job posting"⟩, db)
    else
      let updatedJobs := updateFirst (fun j => j.id == jobId)
        (fun j => patchJob j r) db.jobs
      let dbUpd : DB := { db with jobs := updatedJobs }
      let modifiedCount : Nat :=
        match db.jobs.find? (fun j => j.id == jobId) with
        | some j0 => if patchJob j0 r == j0 then 0 else 1
        | none => 0
      if modifiedCount == 1 then (⟨200, "Job updated successfully"⟩, dbUpd)
      else (⟨400, "No changes made to job"⟩, dbUpd)

/-- POST /jobs/saved/:jobId — save a job (routes/jobs.js lines 594-629):
existence check, duplicate check answering 200 "Job already saved" with no
insert, otherwise one `insertOne`. -/
def postSavedJob (db : DB) (userId : Id) (jobId : Id) (now : Nat) : Resp × DB :=
  match db.jobs.find? (fun j => j.id == jobId) with
  | none => (⟨404, "Job not found"⟩, db)
  | some _ =>
    match db.savedJobs.find? (fun s => s.userId == userId && s.jobId == jobId) with
    | some _ => (⟨200, "Job already saved"⟩, db)
    | none =>
      (⟨201, "Job saved successfully"⟩,
        { db with savedJobs := db.savedJobs ++
            [{ userId := userId, jobId := jobId, savedDate := now }] })

/-- The result document of `getJobseekerAverageRating`. -/
structure RatingResult where
  averageRating : ℚ
  reviewCount : Nat
deriving Repr, DecidableEq

/-- `getJobseekerAverageRating` (models/reviews.js lines 60-81): a `$match` on
jobseekerId followed by a `$group` computing `$avg` of rating and a count.
`$group` emits nothing when no document matched, so the aggregation result is
the empty list and the code returns `{averageRating: 0, reviewCount: 0}`
without any division. -/
def getJobseekerAverageRating (db : DB) (jobseekerId : Id) : RatingResult :=
  let result := db.reviews.filter (fun r => r.jobseekerId == jobseekerId)
  if result.isEmpty then { averageRating := 0, reviewCount := 0 }
  else
    { averageRating := ((result.map (fun r => (r.rating : ℚ))).sum) / result.length,
      reviewCount := result.length }

/-- The cross-collection reference invariant: every application id cached in
some job's `applications` array refers to an existing application document. -/
def refsValidB (db : DB) : Bool :=
  db.jobs.all fun j => j.applications.all fun aid =>
    db.applications.any fun a => a.id == aid

/-! ### Helper lemmas about the store primitives -/

theorem find?_updateFirst (p : α → Bool) (f : α → α) :
    ∀ (l : List α) (x : α), l.find? p = some x → p (f x) = true →
      (updateFirst p f l).find? p = some (f x) := by
  intro l
  induction l with
  | nil => intro x hx; simp [List.find?] at hx
  | cons a l ih =>
    intro x hx hpf
    by_cases hp : p a
    · rw [List.find?_cons_of_pos _ hp, Option.some_inj] at hx
      subst hx
      simp [updateFirst, hp, List.find?_cons_of_pos _ hpf]
    · rw [List.find?_cons_of_neg _ hp] at hx
      simp only [updateFirst, if_neg hp]
      rw [List.find?_cons_of_neg _ hp]
      exact ih x hx hpf

theorem updateFirst_append (p : α → Bool) (f : α → α) :
    ∀ (pre : List α) (j : α) (post : List α),
      (∀ x ∈ pre, p x = false) → p j = true →
      updateFirst p f (pre ++ j :: post) = pre ++ f j :: post := by
  intro pre
  induction pre with
  | nil => intro j post _ hj; simp [updateFirst, hj]
  | cons a pre ih =>
    intro j post hpre hj
    have ha : p a = false := hpre a (List.mem_cons_self a pre)
    simp only [List.cons_append, updateFirst, ha, Bool.false_eq_true, if_false]
    exact congrArg (List.cons a)
      (ih j post (fun x hx => hpre x (List.mem_cons_of_mem a hx)) hj)

theorem mem_updateFirst (p : α → Bool) (f : α → α) :
    ∀ (l : List α) (y : α), y ∈ updateFirst p f l →
      y ∈ l ∨ ∃ x, x ∈ l ∧ y = f x := by
  intro l
  induction l with
  | nil => intro y h; simp [updateFirst] at h
  | cons a l ih =>
    intro y h
    by_cases hp : p a
    · simp only [updateFirst, if_pos hp, List.mem_cons] at h
      rcases h with h | h
      · exact Or.inr ⟨a, List.mem_cons_self a l, h⟩
      · exact Or.inl (List.mem_cons_of_mem a h)
    · simp only [updateFirst, if_neg hp, List.mem_cons] at h
      rcases h with h | h
      · exact Or.inl (by simp [h])
      · rcases ih y h with h' | ⟨x, hx, hy⟩
        · exact Or.inl (List.mem_cons_of_mem a h')
        · exact Or.inr ⟨x, List.mem_cons_of_mem a hx, hy⟩

theorem countP_eq_zero_of_find?_eq_none (p : α → Bool) (l : List α)
    (h : l.find? p = none) : l.countP p = 0 :=
  List.countP_eq_zero.mpr (List.find?_eq_none.mp h)

/-- Both store states a successful precondition check of POST /apply can end
in (notification insert succeeding or not) carry the same applications list
and the same jobs list: the new application appended, and its id pushed onto
the matching job's cache array. -/
theorem postApply_writes (db : DB) (userId : Id) (fn ln : String) (jobId : Id)
    (cover : String) (notes : Option String) (file : Option String)
    (newAppId : Id) (now : Nat) (ok : Bool) (job : Job)
    (hc : cover ≠ "")
    (hjob : db.jobs.find? (fun j => j.id == jobId) = some job)
    (hdup : db.applications.find?
      (fun a => a.jobId == jobId && a.applicantId == userId) = none) :
    (postApply db userId fn ln (some jobId) cover notes file newAppId now ok).2.applications
      = db.applications ++
        [newApplication jobId userId job.employerId cover notes file newAppId now]
    ∧ (postApply db userId fn ln (some jobId) cover notes file newAppId now ok).2.jobs
      = updateFirst (fun j => j.id == jobId)
          (fun j => { j with applications := j.applications ++ [newAppId] }) db.jobs := by
  cases ok <;>
    simp [postApply, hc, hjob, hdup, createNotification]

/-! ### Concrete sample store states used to exercise the operations -/

/-- An active job posting owned by employer 5. -/
def jobA : Job :=
  { id := 1, employerId := 5, title := "Caregiver", salary := 20,
    salaryPeriod := "hourly", employmentType := "Full-time", location := "Leeds",
    description := "care work", requirements := ["kind"], postedDate := 3,
    active := true, applications := [] }

/-- A job posting owned by employer 5 whose active flag is false. -/
def jobB : Job :=
  { jobA with id := 2, active := false }

/-- A store holding one active and one inactive job and nothing else. -/
def db0 : DB :=
  { jobs := [jobA, jobB], applications := [], savedJobs := [],
    notifications := [], reviews := [], users := [] }

/-! ### Claims -/

/-- C1 counterexample: the claim says applying to a job whose active flag is
false is rejected, but POST /apply only checks that the job exists: applying
to the inactive job `jobB` succeeds with 201 and inserts an Application. -/
theorem apply_inactive_job_accepted :
    jobB.active = false
    ∧ (postApply db0 7 "Jo" "Doe" (some 2) "Hi" none none 10 4 true).1
      = ⟨201, "Application submitted successfully"⟩
    ∧ (postApply db0 7 "Jo" "Doe" (some 2) "Hi" none none 10 4 true).2.applications.length
      = 1 :=
  ⟨rfl, rfl, rfl⟩

/-- C1 (amended): Apply fails (and inserts no Application) whenever the target
Job does not exist or an Application for the same (jobId, applicantId) pair
already exists; the active flag is NOT consulted, so whenever the job exists
and there is no duplicate — in particular for an existing job whose active
flag is false — the Application is inserted. -/
theorem apply_preconditions
    (db : DB) (userId : Id) (fn ln : String) (jobId : Id) (cover : String)
    (notes file : Option String) (newId : Id) (now : Nat) (ok : Bool)
    (hc : cover ≠ "") :
    (db.jobs.find? (fun j => j.id == jobId) = none →
      postApply db userId fn ln (some jobId) cover notes file newId now ok
        = (⟨404, "Job not found"⟩, db))
    ∧ (∀ job a, db.jobs.find? (fun j => j.id == jobId) = some job →
        db.applications.find?
          (fun x => x.jobId == jobId && x.applicantId == userId) = some a →
        postApply db userId fn ln (some jobId) cover notes file newId now ok
          = (⟨400, "You have already applied for this job"⟩, db))
    ∧ (∀ job, db.jobs.find? (fun j => j.id == jobId) = some job →
        db.applications.find?
          (fun x => x.jobId == jobId && x.applicantId == userId) = none →
        (postApply db userId fn ln (some jobId) cover notes file newId now ok).2.applications
          = db.applications ++
            [newApplication jobId userId job.employerId cover notes file newId now]) := by
  refine ⟨?_, ?_, ?_⟩
  · intro h
    simp [postApply, hc, h]
  · intro job a hj ha
    simp [postApply, hc, hj, ha]
  · intro job hj hd
    exact (postApply_writes db userId fn ln jobId cover notes file newId now ok
      job hc hj hd).1

/-- C1 witness: the amended third clause at a concrete inactive job. -/
theorem apply_preconditions_witness :
    ("Hi" ≠ "")
    ∧ db0.jobs.find? (fun j => j.id == 2) = some jobB
    ∧ db0.applications.find? (fun x => x.jobId == 2 && x.applicantId == 7) = none
    ∧ (postApply db0 7 "Jo" "Doe" (some 2) "Hi" none none 10 4 true).2.applications
      = db0.applications ++ [newApplication 2 7 jobB.employerId "Hi" none none 10 4] :=
  ⟨by decide, rfl, rfl,
    (apply_preconditions db0 7 "Jo" "Doe" 2 "Hi" none none 10 4 true
      (by decide)).2.2 jobB rfl rfl⟩

/-- C2 counterexample: the claim says a failed notification insert is
swallowed and the triggering Apply still reports success; in fact
`createNotification` rethrows and POST /apply answers 500 even though the
Application was already durably inserted. -/
theorem notification_failure_surfaces :
    (postApply db0 7 "Jo" "Doe" (some 1) "Hi" none none 10 4 false).1
      = ⟨500, "Error submitting application"⟩
    ∧ (postApply db0 7 "Jo" "Doe" (some 1) "Hi" none none 10 4 false).2.applications.length
      = 1 :=
  ⟨rfl, rfl⟩

/-- C2 (amended): when the notification insert fails after a successful
Application insert, the already-performed primary writes (the Application
document and the Job.applications push) are kept — not rolled back — but the
operation reports failure (HTTP 500) to the caller rather than success. -/
theorem notification_failure_keeps_writes
    (db : DB) (userId : Id) (fn ln : String) (jobId : Id) (cover : String)
    (notes file : Option String) (newId : Id) (now : Nat) (job : Job)
    (hc : cover ≠ "")
    (hjob : db.jobs.find? (fun j => j.id == jobId) = some job)
    (hdup : db.applications.find?
      (fun a => a.jobId == jobId && a.applicantId == userId) = none) :
    postApply db userId fn ln (some jobId) cover notes file newId now false
      = (⟨500, "Error submitting application"⟩,
         { db with
           applications := db.applications ++
             [newApplication jobId userId job.employerId cover notes file newId now],
           jobs := updateFirst (fun j => j.id == jobId)
             (fun j => { j with applications := j.applications ++ [newId] })
             db.jobs }) := by
  simp [postApply, hc, hjob, hdup, createNotification]

/-- C2 witness: the amended statement at a concrete store. -/
theorem notification_failure_keeps_writes_witness :
    ("Hi" ≠ "")
    ∧ db0.jobs.find? (fun j => j.id == 1) = some jobA
    ∧ db0.applications.find? (fun a => a.jobId == 1 && a.applicantId == 7) = none
    ∧ postApply db0 7 "Jo" "Doe" (some 1) "Hi" none none 10 4 false
      = (⟨500, "Error submitting application"⟩,
         { db0 with
           applications := db0.applications ++ [newApplication 1 7 jobA.employerId "Hi" none none 10 4],
           jobs := updateFirst (fun j => j.id == 1)
             (fun j => { j with applications := j.applications ++ [10] })
             db0.jobs }) :=
  ⟨by decide, rfl, rfl,
    notification_failure_keeps_writes db0 7 "Jo" "Doe" 1 "Hi" none none 10 4 jobA
      (by decide) rfl rfl⟩

/-- C3: for every jobseeker and job, two successive Apply calls by the same
jobseeker for the same job leave exactly one Application document for that
(jobId, applicantId) pair in the store, and the second call fails with a 400
ConflictError ("You have already applied for this job") without changing the
store at all. -/
theorem apply_twice_single_application
    (db : DB) (userId : Id) (fn ln fn2 ln2 : String) (jobId : Id)
    (cover cover2 : String) (notes notes2 : Option String)
    (file file2 : Option String) (id1 id2 : Id) (t1 t2 : Nat) (ok1 ok2 : Bool)
    (job : Job)
    (hc : cover ≠ "") (hc2 : cover2 ≠ "")
    (hjob : db.jobs.find? (fun j => j.id == jobId) = some job)
    (hdup : db.applications.find?
      (fun a => a.jobId == jobId && a.applicantId == userId) = none) :
    (postApply (postApply db userId fn ln (some jobId) cover notes file id1 t1 ok1).2
        userId fn2 ln2 (some jobId) cover2 notes2 file2 id2 t2 ok2).1
      = ⟨400, "You have already applied for this job"⟩
    ∧ (postApply (postApply db userId fn ln (some jobId) cover notes file id1 t1 ok1).2
        userId fn2 ln2 (some jobId) cover2 notes2 file2 id2 t2 ok2).2
      = (postApply db userId fn ln (some jobId) cover notes file id1 t1 ok1).2
    ∧ (postApply db userId fn ln (some jobId) cover notes file id1 t1 ok1).2.applications.countP
        (fun a => a.jobId == jobId && a.applicantId == userId) = 1 := by
  obtain ⟨happs, hjobs⟩ :=
    postApply_writes db userId fn ln jobId cover notes file id1 t1 ok1 job hc hjob hdup
  set s := (postApply db userId fn ln (some jobId) cover notes file id1 t1 ok1).2 with hs
  have hpj : (job.id == jobId) = true := by
    have := List.find?_some hjob
    simpa using this
  have hjob2 : s.jobs.find? (fun j => j.id == jobId)
      = some { job with applications := job.applications ++ [id1] } := by
    rw [hjobs]
    exact find?_updateFirst _ _ db.jobs job hjob (by simpa using hpj)
  have hdup2 : s.applications.find?
      (fun a => a.jobId == jobId && a.applicantId == userId)
      = some (newApplication jobId userId job.employerId cover notes file id1 t1) := by
    rw [happs, List.find?_append, hdup]
    simp [newApplication, List.find?]
  have h2 : postApply s userId fn2 ln2 (some jobId) cover2 notes2 file2 id2 t2 ok2
      = (⟨400, "You have already applied for this job"⟩, s) := by
    simp [postApply, hc2, hjob2, hdup2]
  refine ⟨by rw [h2], by rw [h2], ?_⟩
  rw [happs, List.countP_append, countP_eq_zero_of_find?_eq_none _ _ hdup]
  simp [newApplication, List.countP_cons]

/-- C3 witness: the double-apply property at a concrete store. -/
theorem apply_twice_single_application_witness :
    ("Hi" ≠ "")
    ∧ db0.jobs.find? (fun j => j.id == 1) = some jobA
    ∧ db0.applications.find? (fun a => a.jobId == 1 && a.applicantId == 7) = none
    ∧ ((postApply (postApply db0 7 "Jo" "Doe" (some 1) "Hi" none none 10 4 true).2
          7 "Jo" "Doe" (some 1) "Hi" none none 11 6 true).1
        = ⟨400, "You have already applied for this job"⟩
      ∧ (postApply (postApply db0 7 "Jo" "Doe" (some 1) "Hi" none none 10 4 true).2
          7 "Jo" "Doe" (some 1) "Hi" none none 11 6 true).2
        = (postApply db0 7 "Jo" "Doe" (some 1) "Hi" none none 10 4 true).2
      ∧ (postApply db0 7 "Jo" "Doe" (some 1) "Hi" none none 10 4 true).2.applications.countP
          (fun a => a.jobId == 1 && a.applicantId == 7) = 1) :=
  ⟨by decide, rfl, rfl,
    apply_twice_single_application db0 7 "Jo" "Doe" "Jo" "Doe" 1 "Hi" "Hi"
      none none none none 10 11 4 6 true true jobA (by decide) (by decide) rfl rfl⟩


/-- C4: withdrawing an Application whose status is not Pending, by its own
applicant, fails with a 400 ConflictError and leaves the whole store (the
Application document and the owning Job's applications list included)
unchanged; withdrawal succeeds — deleting the Application and pulling its id
from Job.applications — exactly when the requester is the applicantId and the
status is Pending. -/
theorem withdraw_only_pending (db : DB) (userId : Id) (applicationId : Id) :
    (∀ a, db.applications.find? (fun x => x.id == applicationId) = some a →
       a.applicantId = userId → a.status ≠ "Pending" →
       deleteApplication db userId applicationId
         = (⟨400, "Can only withdraw pending applications"⟩, db))
    ∧ (∀ a, db.applications.find? (fun x => x.id == applicationId) = some a →
       a.applicantId = userId → a.status = "Pending" →
       deleteApplication db userId applicationId
         = (⟨200, "Application withdrawn successfully"⟩,
            { db with
              applications := deleteFirst (fun x => x.id == applicationId) db.applications,
              jobs := updateFirst (fun j => j.id == a.jobId)
                (fun j => { j with applications :=
                  j.applications.filter (fun aid => aid != applicationId) })
                db.jobs }))
    ∧ ((deleteApplication db userId applicationId).1.status = 200 →
       ∃ a, db.applications.find? (fun x => x.id == applicationId) = some a
         ∧ a.applicantId = userId ∧ a.status = "Pending") := by
  refine ⟨?_, ?_, ?_⟩
  · intro a ha hu hs
    simp [deleteApplication, ha, hu, hs]
  · intro a ha hu hs
    simp [deleteApplication, ha, hu, hs]
  · intro h
    cases hfind : db.applications.find? (fun x => x.id == applicationId) with
    | none => simp [deleteApplication, hfind] at h
    | some a =>
      by_cases hu : a.applicantId = userId
      · by_cases hs : a.status = "Pending"
        · exact ⟨a, rfl, hu, hs⟩
        · simp [deleteApplication, hfind, hu, hs] at h
      · simp [deleteApplication, hfind, hu] at h

/-- An Application for job 1 by jobseeker 7 whose status is Hired. -/
def appHired : Application :=
  { id := 20, jobId := 1, applicantId := 7, employerId := 5,
    coverLetter := "Hi", additionalNotes := "", resumePath := none,
    status := "Hired", appliedDate := 4, lastStatusUpdate := 6 }

/-- A store holding `appHired` alongside the two sample jobs. -/
def dbHired : DB :=
  { db0 with applications := [appHired] }

/-- C4 witness: withdrawing the Hired application by its applicant fails with
400 and leaves the store unchanged. -/
theorem withdraw_only_pending_witness :
    dbHired.applications.find? (fun x => x.id == 20) = some appHired
    ∧ appHired.applicantId = 7
    ∧ appHired.status ≠ "Pending"
    ∧ deleteApplication dbHired 7 20
      = (⟨400, "Can only withdraw pending applications"⟩, dbHired) :=
  ⟨rfl, rfl, by decide,
    (withdraw_only_pending dbHired 7 20).1 appHired rfl rfl (by decide)⟩

/-- C5: a status value outside the closed set always makes
PUT /applications/:id/status fail with a 400 ValidationError and leaves the
store unchanged — in particular the Application keeps its old value and no
Notification document is inserted. -/
theorem invalid_status_rejected (db : DB) (userId applicationId : Id)
    (status : String) (now : Nat) (ok : Bool)
    (h : validStatuses.contains status = false) :
    (putApplicationStatus db userId applicationId (some status) now ok).1.status = 400
    ∧ (putApplicationStatus db userId applicationId (some status) now ok).2 = db := by
  have h' : ¬ status ∈ validStatuses := by simpa using h
  by_cases hse : status = ""
  · subst hse
    simp [putApplicationStatus]
  · simp [putApplicationStatus, hse, h']

/-- C5 witness: the status "Withdrawn" is outside the valid set and is
rejected without touching the store. -/
theorem invalid_status_rejected_witness :
    validStatuses.contains "Withdrawn" = false
    ∧ ((putApplicationStatus db0 5 20 (some "Withdrawn") 8 true).1.status = 400
      ∧ (putApplicationStatus db0 5 20 (some "Withdrawn") 8 true).2 = db0) :=
  ⟨by decide, invalid_status_rejected db0 5 20 "Withdrawn" 8 true (by decide)⟩

/-- C7: SaveJob is idempotent: for a user and an existing job not yet saved,
the first call inserts one SavedJob and answers 201; the second call answers
200 ("Job already saved") rather than an error, inserts nothing, and exactly
one SavedJob document for the (userId, jobId) pair remains. -/
theorem save_job_idempotent (db : DB) (userId jobId : Id) (t1 t2 : Nat) (j : Job)
    (hjob : db.jobs.find? (fun x => x.id == jobId) = some j)
    (hns : db.savedJobs.find?
      (fun s => s.userId == userId && s.jobId == jobId) = none) :
    (postSavedJob db userId jobId t1).1 = ⟨201, "Job saved successfully"⟩
    ∧ (postSavedJob (postSavedJob db userId jobId t1).2 userId jobId t2).1
      = ⟨200, "Job already saved"⟩
    ∧ (postSavedJob (postSavedJob db userId jobId t1).2 userId jobId t2).2
      = (postSavedJob db userId jobId t1).2
    ∧ (postSavedJob (postSavedJob db userId jobId t1).2 userId jobId t2).2.savedJobs.countP
        (fun s => s.userId == userId && s.jobId == jobId) = 1 := by
  have h1 : postSavedJob db userId jobId t1
      = (⟨201, "Job saved successfully"⟩,
         { db with savedJobs := db.savedJobs ++
             [{ userId := userId, jobId := jobId, savedDate := t1 }] }) := by
    simp [postSavedJob, hjob, hns]
  have hfind2 : (postSavedJob db userId jobId t1).2.savedJobs.find?
      (fun s => s.userId == userId && s.jobId == jobId)
      = some { userId := userId, jobId := jobId, savedDate := t1 } := by
    rw [h1, List.find?_append, hns]
    simp [List.find?]
  have hjobs2 : (postSavedJob db userId jobId t1).2.jobs = db.jobs := by
    rw [h1]
  have h2 : postSavedJob (postSavedJob db userId jobId t1).2 userId jobId t2
      = (⟨200, "Job already saved"⟩, (postSavedJob db userId jobId t1).2) := by
    rw [postSavedJob, hjobs2, hjob, hfind2]
  refine ⟨by rw [h1], by rw [h2], by rw [h2], ?_⟩
  rw [h2]
  rw [show (postSavedJob db userId jobId t1).2.savedJobs
      = db.savedJobs ++ [{ userId := userId, jobId := jobId, savedDate := t1 }]
    from by rw [h1]]
  rw [List.countP_append, countP_eq_zero_of_find?_eq_none _ _ hns]
  simp [List.countP_cons]

/-- C7 witness: saving job 1 twice at the concrete store. -/
theorem save_job_idempotent_witness :
    db0.jobs.find? (fun x => x.id == 1) = some jobA
    ∧ db0.savedJobs.find? (fun s => s.userId == 7 && s.jobId == 1) = none
    ∧ ((postSavedJob db0 7 1 4).1 = ⟨201, "Job saved successfully"⟩
      ∧ (postSavedJob (postSavedJob db0 7 1 4).2 7 1 9).1 = ⟨200, "Job already saved"⟩
      ∧ (postSavedJob (postSavedJob db0 7 1 4).2 7 1 9).2 = (postSavedJob db0 7 1 4).2
      ∧ (postSavedJob (postSavedJob db0 7 1 4).2 7 1 9).2.savedJobs.countP
          (fun s => s.userId == 7 && s.jobId == 1) = 1) :=
  ⟨rfl, rfl, save_job_idempotent db0 7 1 4 9 jobA rfl rfl⟩

/-- C8: for a jobseeker with no matching Review documents the average-rating
aggregation returns average 0 and count 0: the `$group` stage emits nothing
for an empty match, so no division ever happens and the code's empty-result
branch supplies the zeros. -/
theorem zero_reviews_zero_average (db : DB) (jobseekerId : Id)
    (h : db.reviews.filter (fun r => r.jobseekerId == jobseekerId) = []) :
    getJobseekerAverageRating db jobseekerId
      = { averageRating := 0, reviewCount := 0 } := by
  simp [getJobseekerAverageRating, h]

/-- C8 witness: the empty store has no reviews for jobseeker 3. -/
theorem zero_reviews_zero_average_witness :
    db0.reviews.filter (fun r => r.jobseekerId == 3) = []
    ∧ getJobseekerAverageRating db0 3 = { averageRating := 0, reviewCount := 0 } :=
  ⟨rfl, zero_reviews_zero_average db0 3 rfl⟩


/-- The PUT /jobs/:id request that supplies only `requirements: []`. -/
def reqEmptyReqs : JobUpdateReq :=
  { title := none, salary := none, salaryPeriod := none, employmentType := none,
    location := none, description := none, requirements := some [], active := none }

/-- C9 counterexample: the claim says a supplied empty `requirements` list is
falsy and hence omitted from the patch; but a JS array — even `[]` — is
truthy, so the stored requirements are overwritten with the empty list. -/
theorem empty_requirements_overwrites :
    jobA.requirements = ["kind"]
    ∧ (putJob db0 5 1 reqEmptyReqs).2.jobs.find? (fun j => j.id == 1)
      = some { jobA with requirements := [] } :=
  ⟨rfl, rfl⟩

/-- C9 (amended): in the job-update operation a supplied `title`, `salary`,
`salaryPeriod`, `employmentType`, `location` or `description` whose value is
falsy (empty string, 0) is silently omitted and the stored field keeps its old
value, and absent fields are left unchanged; `active` is updated whenever
present, including `false`; but `requirements`, being an array, is always
truthy: whenever it is present it is applied, including the empty list. -/
theorem job_update_field_semantics (db : DB) (userId jobId : Id)
    (pre post : List Job) (j : Job) (r : JobUpdateReq)
    (hjobs : db.jobs = pre ++ j :: post)
    (hpre : ∀ x ∈ pre, (x.id == jobId) = false)
    (hid : (j.id == jobId) = true) (hown : (j.employerId == userId) = true)
    (hne : updateDataNonempty r = true) :
    (putJob db userId jobId r).2.jobs = pre ++ patchJob j r :: post
    ∧ ((r.title = none ∨ r.title = some "") → (patchJob j r).title = j.title)
    ∧ ((r.salary = none ∨ r.salary = some 0) → (patchJob j r).salary = j.salary)
    ∧ ((r.salaryPeriod = none ∨ r.salaryPeriod = some "") →
        (patchJob j r).salaryPeriod = j.salaryPeriod)
    ∧ ((r.employmentType = none ∨ r.employmentType = some "") →
        (patchJob j r).employmentType = j.employmentType)
    ∧ ((r.location = none ∨ r.location = some "") →
        (patchJob j r).location = j.location)
    ∧ ((r.description = none ∨ r.description = some "") →
        (patchJob j r).description = j.description)
    ∧ (∀ l, r.requirements = some l → (patchJob j r).requirements = l)
    ∧ (r.requirements = none → (patchJob j r).requirements = j.requirements)
    ∧ (∀ b, r.active = some b → (patchJob j r).active = b)
    ∧ (r.active = none → (patchJob j r).active = j.active) := by
  have hfind : db.jobs.find? (fun x => x.id == jobId && x.employerId == userId)
      = some j := by
    rw [hjobs, List.find?_append]
    have hnone : pre.find? (fun x => x.id == jobId && x.employerId == userId)
        = none :=
      List.find?_eq_none.mpr (fun x hx => by simp [hpre x hx])
    rw [hnone]
    simp [List.find?_cons, hid, hown]
  have hupd : updateFirst (fun x => x.id == jobId) (fun x => patchJob x r) db.jobs
      = pre ++ patchJob j r :: post := by
    rw [hjobs]
    exact updateFirst_append _ _ pre j post hpre hid
  refine ⟨?_, ?_, ?_, ?_, ?_, ?_, ?_, ?_, ?_, ?_, ?_⟩
  · simp only [putJob, hfind, hne, Bool.not_true, Bool.false_eq_true, if_false]
    split <;> simp [hupd]
  · rintro (h | h) <;> simp [patchJob, truthyStr, h]
  · rintro (h | h) <;> simp [patchJob, truthyInt, h]
  · rintro (h | h) <;> simp [patchJob, truthyStr, h]
  · rintro (h | h) <;> simp [patchJob, truthyStr, h]
  · rintro (h | h) <;> simp [patchJob, truthyStr, h]
  · rintro (h | h) <;> simp [patchJob, truthyStr, h]
  · intro l hl
    simp [patchJob, hl]
  · intro hl
    simp [patchJob, hl]
  · intro b hb
    simp [patchJob, hb]
  · intro hb
    simp [patchJob, hb]

/-- C9 witness: the amended route clause at the concrete store, with the
empty-requirements request applied to job 1. -/
theorem job_update_field_semantics_witness :
    db0.jobs = [] ++ jobA :: [jobB]
    ∧ (jobA.id == 1) = true
    ∧ (jobA.employerId == 5) = true
    ∧ updateDataNonempty reqEmptyReqs = true
    ∧ (putJob db0 5 1 reqEmptyReqs).2.jobs
      = [] ++ patchJob jobA reqEmptyReqs :: [jobB] :=
  ⟨rfl, rfl, rfl, rfl,
    (job_update_field_semantics db0 5 1 [] [jobB] jobA reqEmptyReqs rfl
      (by intro x hx; cases hx) rfl rfl rfl).1⟩

/-- C10: for every combination of the optional location, employmentType and
keyword filters, the public job listing returns only jobs whose active flag is
true. -/
theorem listing_only_active (db : DB)
    (location? employmentType? keyword? : Option String) (j : Job)
    (h : j ∈ getJobs db location? employmentType? keyword?) :
    j.active = true := by
  have hmem : j ∈ db.jobs.filter (matchesJobFilter location? employmentType? keyword?) :=
    (List.perm_insertionSort _ _).mem_iff.mp h
  have hm := (List.mem_filter.mp hmem).2
  simp only [matchesJobFilter, Bool.and_eq_true, beq_iff_eq] at hm
  exact hm.1.1.1

/-- C10 witness: the active sample job appears in the unfiltered listing and
the theorem yields its active flag. -/
theorem listing_only_active_witness :
    jobA ∈ getJobs db0 none none none ∧ jobA.active = true :=
  ⟨by decide, listing_only_active db0 none none none jobA (by decide)⟩


/-- `refsValidB` in quantifier form. -/
theorem refsValid_iff (db : DB) : refsValidB db = true ↔
    ∀ j ∈ db.jobs, ∀ aid ∈ j.applications, ∃ a ∈ db.applications, a.id = aid := by
  simp [refsValidB, List.all_eq_true, List.any_eq_true, beq_iff_eq]

/-- Inserting an application document preserves the reference invariant. -/
theorem refsValidB_insert (db : DB) (app : Application)
    (h : refsValidB db = true) :
    refsValidB { db with applications := db.applications ++ [app] } = true := by
  rw [refsValid_iff] at h ⊢
  intro j hj aid haid
  obtain ⟨a, ha, hid⟩ := h j hj aid haid
  exact ⟨a, List.mem_append_left _ ha, hid⟩

/-- Pushing the id of a just-inserted application onto one job's cache array
preserves the reference invariant. -/
theorem refsValidB_push (db : DB) (app : Application) (jobId : Id)
    (h : refsValidB db = true) :
    refsValidB { db with
      applications := db.applications ++ [app],
      jobs := updateFirst (fun j => j.id == jobId)
        (fun j => { j with applications := j.applications ++ [app.id] }) db.jobs }
      = true := by
  rw [refsValid_iff] at h ⊢
  intro j hj aid haid
  rcases mem_updateFirst _ _ db.jobs j hj with hj' | ⟨x, hx, rfl⟩
  · obtain ⟨a, ha, hid⟩ := h j hj' aid haid
    exact ⟨a, List.mem_append_left _ ha, hid⟩
  · rcases List.mem_append.mp haid with haid' | haid'
    · obtain ⟨a, ha, hid⟩ := h x hx aid haid'
      exact ⟨a, List.mem_append_left _ ha, hid⟩
    · have haeq : aid = app.id := List.mem_singleton.mp haid'
      subst haeq
      exact ⟨app, List.mem_append_right _ (List.mem_singleton.mpr rfl), rfl⟩


/-- C6: within a successful Apply the sub-writes occur in program order — the
trace's first state has the Application inserted while the jobs collection is
still untouched; only in the second state is the new id appended to the owning
Job's list; the notification to the job's employer comes last; the route's
final state is the last trace state; and every intermediate state keeps the
invariant that each id cached in a Job's applications array refers to an
existing Application — no state referencing a never-inserted Application is
reachable. -/
theorem apply_write_order (db : DB) (userId : Id) (fn ln : String) (jobId : Id)
    (cover : String) (notes file : Option String) (newId : Id) (now : Nat)
    (ok : Bool) (job : Job)
    (hc : cover ≠ "")
    (hjob : db.jobs.find? (fun j => j.id == jobId) = some job)
    (hdup : db.applications.find?
      (fun a => a.jobId == jobId && a.applicantId == userId) = none) :
    (applyTrace db userId fn ln (some jobId) cover notes file newId now ok).get? 0
      = some { db with applications := db.applications
          ++ [newApplication jobId userId job.employerId cover notes file newId now] }
    ∧ (applyTrace db userId fn ln (some jobId) cover notes file newId now ok).get? 1
      = some { db with
          applications := db.applications
            ++ [newApplication jobId userId job.employerId cover notes file newId now],
          jobs := updateFirst (fun j => j.id == jobId)
            (fun j => { j with applications := j.applications ++ [newId] }) db.jobs }
    ∧ (applyTrace db userId fn ln (some jobId) cover notes file newId now ok).getLast?
      = some (postApply db userId fn ln (some jobId) cover notes file newId now ok).2
    ∧ (refsValidB db = true →
        ∀ s ∈ applyTrace db userId fn ln (some jobId) cover notes file newId now ok,
          refsValidB s = true) := by
  cases ok with
  | false =>
    refine ⟨?_, ?_, ?_, ?_⟩
    · simp [applyTrace, hc, hjob, hdup, createNotification]
    · simp [applyTrace, hc, hjob, hdup, createNotification]
    · simp [applyTrace, postApply, hc, hjob, hdup, createNotification]
    · intro hv s hs
      simp [applyTrace, hc, hjob, hdup, createNotification] at hs
      rcases hs with h | h
      · subst h
        exact refsValidB_insert db _ hv
      · subst h
        exact refsValidB_push db
          (newApplication jobId userId job.employerId cover notes file newId now)
          jobId hv
  | true =>
    refine ⟨?_, ?_, ?_, ?_⟩
    · simp [applyTrace, hc, hjob, hdup, createNotification]
    · simp [applyTrace, hc, hjob, hdup, createNotification]
    · simp [applyTrace, postApply, hc, hjob, hdup, createNotification]
    · intro hv s hs
      simp [applyTrace, hc, hjob, hdup, createNotification] at hs
      rcases hs with h | h | h
      · subst h
        exact refsValidB_insert db _ hv
      · subst h
        exact refsValidB_push db
          (newApplication jobId userId job.employerId cover notes file newId now)
          jobId hv
      · subst h
        exact refsValidB_push db
          (newApplication jobId userId job.employerId cover notes file newId now)
          jobId hv

/-- C6 witness: the trace of a concrete successful apply. -/
theorem apply_write_order_witness :
    ("Hi" ≠ "")
    ∧ db0.jobs.find? (fun j => j.id == 1) = some jobA
    ∧ db0.applications.find? (fun a => a.jobId == 1 && a.applicantId == 7) = none
    ∧ (applyTrace db0 7 "Jo" "Doe" (some 1) "Hi" none none 10 4 true).get? 0
      = some { db0 with applications := db0.applications
          ++ [newApplication 1 7 jobA.employerId "Hi" none none 10 4] } :=
  ⟨by decide, rfl, rfl,
    (apply_write_order db0 7 "Jo" "Doe" 1 "Hi" none none 10 4 true jobA
      (by decide) rfl rfl).1⟩

end JobBoard
